import Mathlib

/-!
Verification development for the direktiv document library manager.

The embedding models the three core modules of the repository:
  direktiv/document_manager.py  (class DocumentManager)
  direktiv/database.py          (class Database)
  direktiv/widgets/file_tree.py (class FileTree)

Modelling conventions:
  - A filesystem path is a list of components (`Path`); the library root is a
    parameter `lib : Path`.
  - File contents are byte lists (`Content`); the md5-digest comparison of
    `DocumentManager._are_files_identical` is modelled as byte equality
    (a collision-free digest).
  - The filesystem is a pair of a directory list and an association list from
    file paths to contents.  `mkdir(exist_ok=True)` is modelled as inserting
    the directory if absent (the corner case where a regular file occupies the
    directory path, which raises in Python, is not modelled; no claim
    exercises it).
  - Timestamps (`date_added`, `last_opened`, `st_mtime`) carry no value of
    interest for any claim; `last_opened` is modelled as `Option Unit`
    (set or NULL) and `st_mtime` is omitted.
  - Python `str.isalnum` and whitespace stripping are modelled with the ASCII
    classifiers `Char.isAlphanum` and `Char.isWhitespace`.
  - The unbounded `while dest_path.exists()` loop of
    `DocumentManager.add_document` is modelled with explicit fuel; the fuel
    `dirs.length + files.length + 1` always suffices because successive
    candidate names strictly grow in length, hence are pairwise distinct.
-/

namespace Direktiv

/-- A filesystem path, as its list of components. -/
abbrev Path := List String

/-- File contents, as a list of bytes. -/
abbrev Content := List Nat

/-- The on-disk state: existing directories and regular files with contents. -/
structure FS where
  dirs : List Path
  files : List (Path × Content)
deriving DecidableEq, Repr

/-- Association-list lookup keyed by decidable equality (first match wins,
mirroring a lookup keyed on a UNIQUE column). -/
def alookup {α : Type} : List (Path × α) → Path → Option α
  | [], _ => none
  | e :: es, p => if e.1 = p then some e.2 else alookup es p

/-- Boolean membership of a path in a list of paths. -/
def listHas : List Path → Path → Bool
  | [], _ => false
  | q :: qs, p => if q = p then true else listHas qs p

/-- Removal of every entry with the given key from an association list
(DELETE, or the REPLACE half of INSERT OR REPLACE, on a UNIQUE key). -/
def aremove {α : Type} : List (Path × α) → Path → List (Path × α)
  | [], _ => []
  | e :: es, p => if e.1 = p then aremove es p else e :: aremove es p

/-- Stable insertion of an element into a list ordered by the strict
comparator, after any element it is not strictly below. -/
def insertOrdered {α : Type} (lt : α → α → Bool) (a : α) : List α → List α
  | [] => [a]
  | b :: bs => if lt a b then a :: b :: bs else b :: insertOrdered lt a bs

/-- Python sorted(): a stable sort by the strict comparator, modelled as
insertion sort. -/
def sortByKey {α : Type} (lt : α → α → Bool) (l : List α) : List α :=
  l.foldl (fun acc a => insertOrdered lt a acc) []

/-- Python Path.exists(): the path names a directory or a regular file. -/
def pathExists (fs : FS) (p : Path) : Bool :=
  listHas fs.dirs p || (alookup fs.files p).isSome

/-- Python mkdir(exist_ok=True): insert the directory if absent. -/
def mkdirIfAbsent (fs : FS) (p : Path) : FS :=
  if listHas fs.dirs p then fs else ⟨p :: fs.dirs, fs.files⟩

/-- Python Path.name: the last component of a path (empty for the root). -/
def lastName (p : Path) : String :=
  (p.getLast?).getD ""

/-- Python pathlib splits a file name at the last dot, provided that dot is
neither the first nor the last character; otherwise the suffix is empty.
Returns the index after which the suffix starts, if any. -/
def lastDotIdx (cs : List Char) : Option Nat :=
  match cs.reverse.findIdx? (fun c => c == '.') with
  | none => none
  | some r =>
    let i := cs.length - 1 - r
    if 0 < i && i < cs.length - 1 then some i else none

/-- Python pathlib Path.stem for a file name. -/
def pyStem (name : String) : String :=
  match lastDotIdx name.data with
  | some i => ⟨name.data.take i⟩
  | none => name

/-- Python pathlib Path.suffix for a file name. -/
def pySuffix (name : String) : String :=
  match lastDotIdx name.data with
  | some i => ⟨name.data.drop i⟩
  | none => ""

/-- Python str.lower, restricted to ASCII case mapping. -/
def pyLower (s : String) : String :=
  ⟨s.data.map Char.toLower⟩

/-- Python str.endswith. -/
def strEndsWith (s suffixStr : String) : Bool :=
  suffixStr.data.isSuffixOf s.data

/-- Python str.startswith. -/
def strStartsWith (s prefixStr : String) : Bool :=
  prefixStr.data.isPrefixOf s.data

/-- Python string comparison: lexicographic on code points. -/
def strLtChars : List Char → List Char → Bool
  | [], [] => false
  | [], _ :: _ => true
  | _ :: _, [] => false
  | a :: as, b :: bs =>
    if a.toNat < b.toNat then true
    else if b.toNat < a.toNat then false
    else strLtChars as bs

/-- Python `<` on strings. -/
def pyStrLt (a b : String) : Bool :=
  strLtChars a.data b.data

/-- Python str.strip(): drop leading and trailing whitespace. -/
def pyStrip (s : String) : String :=
  ⟨((s.data.dropWhile Char.isWhitespace).reverse.dropWhile Char.isWhitespace).reverse⟩

/-! ## DocumentManager (direktiv/document_manager.py) -/

/-- Result triple of DocumentManager.add_document: (success, message, path). -/
structure AddResult where
  success : Bool
  message : String
  path : Option Path
deriving DecidableEq, Repr

/-- Result pair of the other DocumentManager operations: (success, message). -/
structure OpResult where
  success : Bool
  message : String
deriving DecidableEq, Repr

/-- DocumentManager._are_files_identical: md5 digests of both files compared,
modelled as byte equality; any read failure (either path not a regular file)
lands in the except branch and yields False. -/
def areFilesIdentical (fs : FS) (p q : Path) : Bool :=
  match alookup fs.files p, alookup fs.files q with
  | some a, some b => a == b
  | _, _ => false

/-- The `while dest_path.exists()` loop of DocumentManager.add_document:
starting from the current candidate name and counter, append an incrementing
numeric suffix to the stem of the previous candidate until a free name is
found.  Fuel bounds the iteration; `none` (fuel exhausted) is unreachable for
fuel larger than the number of existing paths, because candidate names grow
strictly in length. -/
def resolveCollision (fs : FS) (categoryPath : Path) (destName : String)
    (counter fuel : Nat) : Option String :=
  match fuel with
  | 0 => none
  | f + 1 =>
    if pathExists fs (categoryPath ++ [destName]) then
      resolveCollision fs categoryPath
        (pyStem destName ++ "_" ++ toString counter ++ ".md") (counter + 1) f
    else
      some destName

/-- DocumentManager.add_document. -/
def addDocument (lib : Path) (fs : FS) (sourcePath : Path) (category : String)
    (title : Option String) : AddResult × FS :=
  if ¬ pathExists fs sourcePath then
    ({ success := false, message := "File does not exist", path := none }, fs)
  else if pyLower (pySuffix (lastName sourcePath)) ≠ ".md" then
    ({ success := false, message := "Only markdown files (.md) are supported",
       path := none }, fs)
  else
    let categoryPath := lib ++ [category]
    let fs1 := mkdirIfAbsent fs categoryPath
    let destName0 := title.getD (lastName sourcePath)
    let destName := if strEndsWith destName0 ".md" then destName0
                    else destName0 ++ ".md"
    let destPath := categoryPath ++ [destName]
    if pathExists fs1 destPath then
      if areFilesIdentical fs1 sourcePath destPath then
        ({ success := false, message := "Document already exists in library",
           path := some destPath }, fs1)
      else
        match resolveCollision fs1 categoryPath destName 1
            (fs1.dirs.length + fs1.files.length + 1) with
        | some finalName =>
          match alookup fs1.files sourcePath with
          | some c =>
            ({ success := true, message := "Added " ++ destName ++ " to " ++ category,
               path := some (categoryPath ++ [finalName]) },
             ⟨fs1.dirs, (categoryPath ++ [finalName], c) :: fs1.files⟩)
          | none =>
            ({ success := false, message := "Failed to add document",
               path := none }, fs1)
        | none =>
          ({ success := false, message := "Failed to add document",
             path := none }, fs1)
    else
      match alookup fs1.files sourcePath with
      | some c =>
        ({ success := true, message := "Added " ++ destName ++ " to " ++ category,
           path := some destPath },
         ⟨fs1.dirs, (destPath, c) :: fs1.files⟩)
      | none =>
        ({ success := false, message := "Failed to add document",
           path := none }, fs1)

/-- The sanitization step of DocumentManager.create_category: keep
alphanumeric characters, spaces, hyphens and underscores, then strip. -/
def sanitizeCategoryName (name : String) : String :=
  pyStrip ⟨name.data.filter
    (fun c => c.isAlphanum || c == ' ' || c == '-' || c == '_')⟩

/-- DocumentManager.create_category. -/
def createCategory (lib : Path) (fs : FS) (name : String) : OpResult × FS :=
  if pyStrip name = "" then
    ({ success := false, message := "Category name cannot be empty" }, fs)
  else
    let safeName := sanitizeCategoryName name
    if safeName = "" then
      ({ success := false, message := "Invalid category name" }, fs)
    else
      let categoryPath := lib ++ [safeName]
      if pathExists fs categoryPath then
        ({ success := false, message := "Category already exists" }, fs)
      else
        ({ success := true, message := "Created category" },
         ⟨categoryPath :: fs.dirs, fs.files⟩)

/-- Python Path.relative_to(library_path) succeeds exactly when the library
root is an ancestor of (or equal to) the path. -/
def relativeToOk (lib p : Path) : Bool :=
  lib.isPrefixOf p

/-- DocumentManager.delete_document.  The unlink of a path that exists but is
not a regular file raises and is caught, yielding the failure branch. -/
def deleteDocument (lib : Path) (fs : FS) (p : Path) : OpResult × FS :=
  if ¬ pathExists fs p then
    ({ success := false, message := "Document not found" }, fs)
  else if ¬ relativeToOk lib p then
    ({ success := false, message := "Document is not in library" }, fs)
  else
    match alookup fs.files p with
    | some _ =>
      ({ success := true, message := "Document deleted" },
       ⟨fs.dirs, aremove fs.files p⟩)
    | none =>
      ({ success := false, message := "Failed to delete" }, fs)

/-- Relocation of a path under shutil.move: the moved path and everything
below it is rebased onto the destination path. -/
def rebasePath (oldP newP q : Path) : Path :=
  if oldP.isPrefixOf q then newP ++ q.drop oldP.length else q

/-- DocumentManager.move_document.  The target category directory is created
(exist_ok) before the same-name collision check. -/
def moveDocument (lib : Path) (fs : FS) (p : Path) (newCategory : String) :
    OpResult × FS :=
  if ¬ pathExists fs p then
    ({ success := false, message := "Document not found" }, fs)
  else if ¬ relativeToOk lib p then
    ({ success := false, message := "Document is not in library" }, fs)
  else
    let categoryPath := lib ++ [newCategory]
    let fs1 := mkdirIfAbsent fs categoryPath
    let newPath := categoryPath ++ [lastName p]
    if pathExists fs1 newPath then
      ({ success := false,
         message := "Document already exists in " ++ newCategory }, fs1)
    else
      ({ success := true, message := "Moved to " ++ newCategory },
       ⟨fs1.dirs.map (rebasePath p newPath),
        fs1.files.map (fun e => (rebasePath p newPath e.1, e.2))⟩)

/-- The immediate-child name of `p` below directory `d`, when `p` is a direct
child of `d`. -/
def childName (d p : Path) : Option String :=
  if d.isPrefixOf p ∧ p.length = d.length + 1 then p.getLast? else none

/-- DocumentManager.list_categories: names of immediate subdirectories of the
library root, with dotfile-named directories skipped unless requested, sorted
lexicographically. -/
def listCategories (lib : Path) (showDotfiles : Bool) (fs : FS) : List String :=
  sortByKey pyStrLt
    ((fs.dirs.filterMap (fun d => childName lib d)).filter
      (fun n => showDotfiles || ! strStartsWith n "."))

/-- One entry of DocumentManager.list_documents (the modification timestamp is
not modelled; the size is the byte length of the contents). -/
structure DocInfo where
  path : Path
  name : String
  category : String
  size : Nat
deriving DecidableEq, Repr

/-- Python glob "*.md" inside a category directory: regular files that are
immediate children whose name ends in ".md". -/
def globMd (fs : FS) (catPath : Path) : List (String × Content) :=
  fs.files.filterMap (fun e =>
    match childName catPath e.1 with
    | some n => if strEndsWith n ".md" then some (n, e.2) else none
    | none => none)

/-- DocumentManager.list_documents. -/
def listDocuments (lib : Path) (showDotfiles : Bool) (fs : FS)
    (category : Option String) : List DocInfo :=
  let cats := match category with
    | some c => if pathExists fs (lib ++ [c]) then [c] else []
    | none => listCategories lib showDotfiles fs
  sortByKey (fun a b => pyStrLt a.category b.category ||
      (a.category == b.category && pyStrLt a.name b.name))
    (cats.flatMap (fun c =>
      (globMd fs (lib ++ [c])).map (fun e =>
        { path := lib ++ [c, e.1], name := e.1, category := c,
          size := e.2.length })))

/-- Aggregate result of DocumentManager.import_directory. -/
structure ImportResult where
  successCount : Nat
  failCount : Nat
  messages : List String
deriving DecidableEq, Repr

/-- The paths matched by source_dir.glob("**/*.md") (recursive) or
source_dir.glob("*.md"): directories and regular files below the source
directory whose name ends in ".md", at any depth of at least one for the
recursive pattern, at depth exactly one otherwise.  The enumeration order of
glob is OS-dependent; it is modelled as the model list order.  A directory
matching the pattern is passed to add_document like any other match, where
its copy fails.  The glob is modelled as a snapshot taken before any file is
copied. -/
def globImport (fs : FS) (sourceDir : Path) (recursive : Bool) : List Path :=
  (fs.dirs ++ fs.files.map Prod.fst).filter (fun p =>
    strEndsWith (lastName p) ".md" &&
    (if recursive then sourceDir.isPrefixOf p && sourceDir.length < p.length
     else sourceDir.isPrefixOf p && p.length == sourceDir.length + 1))

/-- Python Path.parent: drop the last component. -/
def parentPath (p : Path) : Path :=
  p.dropLast

/-- The category the import loop assigns to a match: the explicit category
when one was given, or General for files directly under the source directory,
or the name of the immediate parent directory. -/
def importTargetCategory (category : Option String) (sourceDir : Path)
    (mdFile : Path) : String :=
  match category with
  | some c => c
  | none => if parentPath mdFile = sourceDir then "General"
            else lastName (parentPath mdFile)

/-- The per-file body of the import loop of
DocumentManager.import_directory. -/
def importStep (lib : Path) (category : Option String) (sourceDir : Path)
    (acc : ImportResult × FS) (mdFile : Path) : ImportResult × FS :=
  let r := (addDocument lib acc.2 mdFile
    (importTargetCategory category sourceDir mdFile) none).1
  let fs2 := (addDocument lib acc.2 mdFile
    (importTargetCategory category sourceDir mdFile) none).2
  ({ successCount := if r.success then acc.1.successCount + 1 else acc.1.successCount,
     failCount := if r.success then acc.1.failCount else acc.1.failCount + 1,
     messages := acc.1.messages ++ [lastName mdFile ++ ": " ++ r.message] }, fs2)

/-- DocumentManager.import_directory. -/
def importDirectory (lib : Path) (fs : FS) (sourceDir : Path)
    (category : Option String) (recursive : Bool) : ImportResult × FS :=
  if ¬ listHas fs.dirs sourceDir then
    ({ successCount := 0, failCount := 0,
       messages := ["Directory does not exist"] }, fs)
  else
    (globImport fs sourceDir recursive).foldl
      (importStep lib category sourceDir)
      ({ successCount := 0, failCount := 0, messages := [] }, fs)

/-! ## Database (direktiv/database.py) -/

/-- One row of the documents table.  `lastOpened` abstracts the timestamp
value to set-or-NULL; `dateAdded` carries no claim-relevant value and is
omitted. -/
structure DocRecord where
  originalPath : Option Path
  category : String
  title : Option String
  isRead : Bool
  lastOpened : Option Unit
deriving DecidableEq, Repr

/-- The documents table, keyed by library_path (a UNIQUE column: lookups take
the first matching row). -/
abbrev DB := List (Path × DocRecord)

/-- Database.add_document: INSERT OR REPLACE with is_read FALSE; columns not
named in the statement (last_opened among them) revert to their defaults. -/
def dbAddDocument (db : DB) (p : Path) (category : String)
    (originalPath : Option Path) (title : Option String) : DB :=
  (p, { originalPath := originalPath, category := category, title := title,
        isRead := false, lastOpened := none }) :: aremove db p

/-- Database.mark_as_read: an UPDATE on the matching row; it touches no row
when the path is not stored. -/
def markAsRead (db : DB) (p : Path) : DB :=
  db.map (fun e =>
    if e.1 = p then (e.1, { e.2 with isRead := true, lastOpened := some () })
    else e)

/-- Database.mark_as_unread: an UPDATE setting is_read FALSE on the matching
row; last_opened is left as it is, and no row is touched for an unknown
path. -/
def markAsUnread (db : DB) (p : Path) : DB :=
  db.map (fun e =>
    if e.1 = p then (e.1, { e.2 with isRead := false }) else e)

/-- Database.is_read: the stored flag, or False when no row matches. -/
def dbIsRead (db : DB) (p : Path) : Bool :=
  match alookup db p with
  | some r => r.isRead
  | none => false

/-- Database.get_document_info: the full row, or absence. -/
def getDocumentInfo (db : DB) (p : Path) : Option DocRecord :=
  alookup db p

/-- Database.delete_document: remove the matching row. -/
def dbDeleteDocument (db : DB) (p : Path) : DB :=
  aremove db p

/-! ## FileTree (direktiv/widgets/file_tree.py)

The Textual tree widget is an external collaborator; its node primitives are
modelled by their documented behaviour: expand() sets the expanded flag of a
node, clear() discards all nodes below the root and leaves no cursor, and
select_node() places the cursor on a node.  Node identity is the filesystem
path carried as node data. -/

/-- A document leaf of the tree. -/
structure DocNode where
  path : Path
  label : String
deriving DecidableEq, Repr

/-- A category node of the tree. -/
structure CatNode where
  path : Path
  label : String
  expanded : Bool
  docs : List DocNode
deriving DecidableEq, Repr

/-- The tree state: the root node (data = library root) with its expanded
flag, category nodes in order, and the cursor as the data path of the cursor
node, if any. -/
structure TreeState where
  rootExpanded : Bool
  cats : List CatNode
  cursor : Option Path
deriving DecidableEq, Repr

/-- FileTree._add_categories_and_documents: one category node per listed
category that exists, holding one leaf per listed document that exists,
labelled with the read glyph from the database; a category with documents is
expanded. -/
def buildCats (lib : Path) (showDotfiles : Bool) (fs : FS) (db : DB) :
    List CatNode :=
  (listCategories lib showDotfiles fs).filterMap (fun category =>
    let categoryPath := lib ++ [category]
    if pathExists fs categoryPath then
      let documents := listDocuments lib showDotfiles fs (some category)
      some { path := categoryPath
             label := "📁 " ++ category
             expanded := ! documents.isEmpty
             docs := (documents.filter (fun d => pathExists fs d.path)).map
               (fun d => { path := d.path
                           label := (if dbIsRead db d.path then "✓ " else "● ")
                             ++ d.name }) }
    else none)

/-- FileTree._populate_tree: build the category nodes and expand the root. -/
def populateTree (lib : Path) (showDotfiles : Bool) (fs : FS) (db : DB)
    (cursor : Option Path) : TreeState :=
  { rootExpanded := true, cats := buildCats lib showDotfiles fs db,
    cursor := cursor }

/-- FileTree._get_expanded_paths: the identities of expanded nodes whose data
path is a directory — the root node and expanded category nodes (document
leaves are never directories). -/
def getExpandedPaths (lib : Path) (fs : FS) (t : TreeState) : List Path :=
  (if t.rootExpanded && listHas fs.dirs lib then [lib] else []) ++
    t.cats.filterMap (fun c =>
      if c.expanded && listHas fs.dirs c.path then some c.path else none)

/-- FileTree._restore_expanded_state: expand every node whose identity is in
the saved set; nodes outside the set keep their current state (nothing is
ever collapsed). -/
def restoreExpandedState (lib : Path) (saved : List Path) (t : TreeState) :
    TreeState :=
  { t with
    rootExpanded := t.rootExpanded || listHas saved lib,
    cats := t.cats.map (fun c =>
      if listHas saved c.path then { c with expanded := true } else c) }

/-- The node identities reachable by FileTree._select_path: the root (data =
library root), category nodes and document leaves. -/
def treePaths (lib : Path) (t : TreeState) : List Path :=
  lib :: t.cats.flatMap (fun c => c.path :: c.docs.map (fun d => d.path))

/-- FileTree._select_path: place the cursor on the node with the given
identity when one exists; report whether one was found. -/
def selectPath (lib : Path) (t : TreeState) (target : Path) : TreeState :=
  if listHas (treePaths lib t) target then { t with cursor := some target }
  else t

/-- The per-document body of FileTree._sync_database. -/
def syncStep (acc : DB) (doc : DocInfo) : DB :=
  if (getDocumentInfo acc doc.path).isSome then acc
  else dbAddDocument acc doc.path doc.category none none

/-- FileTree._sync_database: insert a default (unread) row for every listed
document absent from the database; rows already present are left alone. -/
def syncDatabase (lib : Path) (showDotfiles : Bool) (fs : FS) (db : DB) : DB :=
  (listDocuments lib showDotfiles fs none).foldl syncStep db

/-- FileTree.refresh_tree: save the expanded identities and the cursor
identity, sync the database, tear the tree down and rebuild it, re-expand the
saved identities, and re-select the saved cursor identity when it is still
present. -/
def refreshTree (lib : Path) (showDotfiles : Bool) (fs : FS) (db : DB)
    (t : TreeState) : TreeState × DB :=
  let expandedPaths := getExpandedPaths lib fs t
  let selectedPath := t.cursor
  let db1 := syncDatabase lib showDotfiles fs db
  let t1 := populateTree lib showDotfiles fs db1 none
  let t2 := restoreExpandedState lib expandedPaths t1
  let t3 := match selectedPath with
    | some p => selectPath lib t2 p
    | none => t2
  (t3, db1)

/-- FileTree.delete_document: delete on disk; on success remove the database
row and refresh the tree. -/
def treeDeleteDocument (lib : Path) (showDotfiles : Bool) (fs : FS) (db : DB)
    (t : TreeState) (p : Path) : Bool × FS × DB × TreeState :=
  let (r, fs1) := deleteDocument lib fs p
  if r.success then
    let db1 := dbDeleteDocument db p
    let (t1, db2) := refreshTree lib showDotfiles fs1 db1 t
    (true, fs1, db2, t1)
  else
    (false, fs, db, t)

/-! ## General lemmas about the model -/

theorem listHas_iff_mem {l : List Path} {p : Path} :
    listHas l p = true ↔ p ∈ l := by
  induction l with
  | nil => simp [listHas]
  | cons q qs ih =>
    by_cases h : q = p
    · subst h
      simp [listHas]
    · simp [listHas, h, ih, Ne.symm h]

theorem alookup_cons {α : Type} (e : Path × α) (l : List (Path × α)) (p : Path) :
    alookup (e :: l) p = if e.1 = p then some e.2 else alookup l p := rfl

theorem alookup_aremove_ne {α : Type} (l : List (Path × α)) {p q : Path}
    (h : q ≠ p) :
    alookup (aremove l p) q = alookup l q := by
  induction l with
  | nil => rfl
  | cons e es ih =>
    unfold aremove
    by_cases he : e.1 = p
    · rw [if_pos he, ih, alookup_cons, if_neg]
      rw [he]
      exact fun hc => h hc.symm
    · rw [if_neg he, alookup_cons, alookup_cons]
      by_cases heq : e.1 = q
      · rw [if_pos heq, if_pos heq]
      · rw [if_neg heq, if_neg heq, ih]

theorem alookup_dbAddDocument_self (db : DB) (p : Path) (category : String)
    (originalPath : Option Path) (title : Option String) :
    alookup (dbAddDocument db p category originalPath title) p =
      some { originalPath := originalPath, category := category,
             title := title, isRead := false, lastOpened := none } := by
  simp [dbAddDocument, alookup]

theorem alookup_dbAddDocument_ne (db : DB) {p q : Path} (category : String)
    (originalPath : Option Path) (title : Option String) (h : q ≠ p) :
    alookup (dbAddDocument db p category originalPath title) q = alookup db q := by
  simp only [dbAddDocument, alookup_cons]
  rw [if_neg (fun hc => h hc.symm), alookup_aremove_ne _ h]

theorem mkdirIfAbsent_files (fs : FS) (p : Path) :
    (mkdirIfAbsent fs p).files = fs.files := by
  unfold mkdirIfAbsent
  split <;> rfl

theorem mkdirIfAbsent_has (fs : FS) (p : Path) :
    listHas (mkdirIfAbsent fs p).dirs p = true := by
  unfold mkdirIfAbsent
  split
  · assumption
  · simp [listHas]

theorem selectPath_cats (lib : Path) (t : TreeState) (target : Path) :
    (selectPath lib t target).cats = t.cats := by
  unfold selectPath
  split <;> rfl

theorem selectPath_rootExpanded (lib : Path) (t : TreeState) (target : Path) :
    (selectPath lib t target).rootExpanded = t.rootExpanded := by
  unfold selectPath
  split <;> rfl

theorem treePaths_eq_of_cats (lib : Path) {t1 t2 : TreeState}
    (h : t1.cats = t2.cats) : treePaths lib t1 = treePaths lib t2 := by
  unfold treePaths
  rw [h]

/-! ## Structural lemmas for the tree refresh -/

theorem refreshTree_eq (lib : Path) (showDotfiles : Bool) (fs : FS) (db : DB)
    (t : TreeState) :
    refreshTree lib showDotfiles fs db t =
      (match t.cursor with
       | some p => selectPath lib
           (restoreExpandedState lib (getExpandedPaths lib fs t)
             (populateTree lib showDotfiles fs
               (syncDatabase lib showDotfiles fs db) none)) p
       | none => restoreExpandedState lib (getExpandedPaths lib fs t)
           (populateTree lib showDotfiles fs
             (syncDatabase lib showDotfiles fs db) none),
       syncDatabase lib showDotfiles fs db) := rfl

theorem refreshTree_cats (lib : Path) (showDotfiles : Bool) (fs : FS) (db : DB)
    (t : TreeState) :
    ((refreshTree lib showDotfiles fs db t).1).cats =
      (buildCats lib showDotfiles fs (syncDatabase lib showDotfiles fs db)).map
        (fun c => if listHas (getExpandedPaths lib fs t) c.path then
            { c with expanded := true } else c) := by
  rw [refreshTree_eq]
  cases t.cursor with
  | none => rfl
  | some p =>
    show (selectPath lib _ p).cats = _
    rw [selectPath_cats]
    rfl

theorem refreshTree_rootExpanded (lib : Path) (showDotfiles : Bool) (fs : FS)
    (db : DB) (t : TreeState) :
    ((refreshTree lib showDotfiles fs db t).1).rootExpanded = true := by
  rw [refreshTree_eq]
  cases t.cursor with
  | none => rfl
  | some p =>
    show (selectPath lib _ p).rootExpanded = true
    rw [selectPath_rootExpanded]
    rfl

theorem buildCats_docs_expanded {lib : Path} {showDotfiles : Bool} {fs : FS}
    {db : DB} {c : CatNode} (h : c ∈ buildCats lib showDotfiles fs db)
    (hd : c.docs ≠ []) : c.expanded = true := by
  unfold buildCats at h
  rw [List.mem_filterMap] at h
  obtain ⟨category, _, heq⟩ := h
  dsimp only at heq
  split at heq
  · rw [Option.some.injEq] at heq
    subst heq
    simp only at hd ⊢
    have hdocs : listDocuments lib showDotfiles fs (some category) ≠ [] := by
      intro hnil
      apply hd
      rw [hnil]
      rfl
    simp [List.isEmpty_eq_false.mpr hdocs]
  · exact absurd heq (by simp)

/-! ## Fold lemmas for the database sync pass -/

theorem syncStep_preserves_lookup (db : DB) (d : DocInfo) {p : Path}
    (h : (alookup db p).isSome) :
    alookup (syncStep db d) p = alookup db p := by
  unfold syncStep
  split
  · rfl
  · have hne : p ≠ d.path := by
      intro hc
      subst hc
      simp [getDocumentInfo] at *
      simp [Option.isSome_iff_exists] at h
      obtain ⟨r, hr⟩ := h
      simp_all
    exact alookup_dbAddDocument_ne db d.category none none hne

theorem syncFold_preserves_lookup (docs : List DocInfo) (db : DB) {p : Path}
    (h : (alookup db p).isSome) :
    alookup (docs.foldl syncStep db) p = alookup db p := by
  induction docs generalizing db with
  | nil => rfl
  | cons d rest ih =>
    have hstep := syncStep_preserves_lookup db d h
    have hsome : (alookup (syncStep db d) p).isSome := by
      rw [hstep]
      exact h
    calc alookup ((d :: rest).foldl syncStep db) p
        = alookup (rest.foldl syncStep (syncStep db d)) p := rfl
      _ = alookup (syncStep db d) p := ih _ hsome
      _ = alookup db p := hstep

theorem syncFold_inserts_default (docs : List DocInfo) (db : DB) {p : Path}
    {d : DocInfo} (h : alookup db p = none)
    (hf : docs.find? (fun x => x.path == p) = some d) :
    alookup (docs.foldl syncStep db) p =
      some { originalPath := none, category := d.category, title := none,
             isRead := false, lastOpened := none } := by
  induction docs generalizing db with
  | nil => simp at hf
  | cons x rest ih =>
    by_cases hx : x.path = p
    · have hxd : x = d := by
        have : (fun y : DocInfo => y.path == p) x = true := by simp [hx]
        rw [List.find?_cons] at hf
        simp [this] at hf
        exact hf
      subst hxd
      have hstep : syncStep db x = dbAddDocument db x.path x.category none none := by
        unfold syncStep
        rw [if_neg]
        simp [getDocumentInfo, hx, h]
      have hsome : (alookup (syncStep db x) p).isSome := by
        rw [hstep, hx, alookup_dbAddDocument_self]
        rfl
      have hval : alookup (syncStep db x) p =
          some { originalPath := none, category := x.category, title := none,
                 isRead := false, lastOpened := none } := by
        rw [hstep, hx, alookup_dbAddDocument_self]
      calc alookup ((x :: rest).foldl syncStep db) p
          = alookup (rest.foldl syncStep (syncStep db x)) p := rfl
        _ = alookup (syncStep db x) p := syncFold_preserves_lookup rest _ hsome
        _ = _ := hval
    · have hfx : (fun y : DocInfo => y.path == p) x = false := by simp [hx]
      rw [List.find?_cons] at hf
      simp only [hfx] at hf
      have hnone : alookup (syncStep db x) p = none := by
        unfold syncStep
        split
        · exact h
        · rw [alookup_dbAddDocument_ne db x.category none none (fun hc => hx hc.symm)]
          exact h
      calc alookup ((x :: rest).foldl syncStep db) p
          = alookup (rest.foldl syncStep (syncStep db x)) p := rfl
        _ = _ := ih _ hnone hf

/-! ## Claims -/

/-- C7: for every state of the library and status store, the pre-rebuild
reconciliation pass (FileTree._sync_database) inserts a default-unread status
record for every document present in the library listing but absent from the
status store, and never modifies or removes any status record already present
(stale records included). -/
theorem syncDatabase_one_directional (lib : Path) (showDotfiles : Bool)
    (fs : FS) (db : DB) :
    (∀ p : Path, (alookup db p).isSome →
      alookup (syncDatabase lib showDotfiles fs db) p = alookup db p) ∧
    (∀ (p : Path) (d : DocInfo), alookup db p = none →
      (listDocuments lib showDotfiles fs none).find? (fun x => x.path == p)
        = some d →
      alookup (syncDatabase lib showDotfiles fs db) p =
        some { originalPath := none, category := d.category, title := none,
               isRead := false, lastOpened := none }) := by
  constructor
  · intro p h
    exact syncFold_preserves_lookup _ db h
  · intro p d h hf
    exact syncFold_inserts_default _ db h hf

/-- C7 witness: a library with one document and a status store holding one
stale record for a deleted document: the sync pass keeps the stale record
untouched and inserts a default-unread record for the listed document. -/
theorem syncDatabase_one_directional_witness :
    (alookup ([(["gone", "old.md"],
        { originalPath := none, category := "Old", title := none,
          isRead := true, lastOpened := some () })] : DB)
        ["gone", "old.md"]).isSome = true ∧
    alookup (syncDatabase ["lib"] false
        ⟨[["lib"], ["lib", "A"]], [(["lib", "A", "doc.md"], [1])]⟩
        [(["gone", "old.md"],
          { originalPath := none, category := "Old", title := none,
            isRead := true, lastOpened := some () })])
      ["gone", "old.md"] =
      some { originalPath := none, category := "Old", title := none,
             isRead := true, lastOpened := some () } ∧
    alookup (syncDatabase ["lib"] false
        ⟨[["lib"], ["lib", "A"]], [(["lib", "A", "doc.md"], [1])]⟩
        [(["gone", "old.md"],
          { originalPath := none, category := "Old", title := none,
            isRead := true, lastOpened := some () })])
      ["lib", "A", "doc.md"] =
      some { originalPath := none, category := "A", title := none,
             isRead := false, lastOpened := none } := by
  refine ⟨by decide, ?_, ?_⟩
  · exact (syncDatabase_one_directional ["lib"] false
      ⟨[["lib"], ["lib", "A"]], [(["lib", "A", "doc.md"], [1])]⟩ _).1
      ["gone", "old.md"] (by decide)
  · exact (syncDatabase_one_directional ["lib"] false
      ⟨[["lib"], ["lib", "A"]], [(["lib", "A", "doc.md"], [1])]⟩ _).2
      ["lib", "A", "doc.md"]
      { path := ["lib", "A", "doc.md"], name := "doc.md", category := "A",
        size := 1 }
      (by decide) (by decide)

/-- C3: the claim expects markRead to be an upsert, so that markRead on a
path with no pre-existing status record is visible to isRead.  The code
contradicts its own test suite here (tests/test_database.py,
test_mark_file_as_read marks a path that was never inserted and asserts
is_read is True): Database.mark_as_read is a plain SQL UPDATE, which touches
no row for an unknown path, so is_read stays False.  This theorem evaluates
the model at the failing input of that test. -/
theorem markAsRead_unknown_path_not_upsert :
    dbIsRead (markAsRead ([] : DB) ["test", "file.md"]) ["test", "file.md"]
      = false ∧
    dbIsRead (markAsUnread ([] : DB) ["test", "file.md"]) ["test", "file.md"]
      = false ∧
    dbIsRead ([] : DB) ["test", "file.md"] = false ∧
    dbIsRead (markAsRead
        (dbAddDocument ([] : DB) ["test", "file.md"] "General" none none)
        ["test", "file.md"]) ["test", "file.md"] = true := by
  decide

/-- C2 counterexample: a category node with one document that the user had
collapsed before the refresh (expanded = false in the pre-refresh tree) is
expanded again after refresh_tree: the auto-expand of non-empty categories in
_add_categories_and_documents runs on every rebuild, and
_restore_expanded_state only ever expands nodes, never collapses them.  The
claim that the recorded collapse survives the rebuild is therefore false. -/
theorem refresh_reexpands_collapsed_category :
    ((refreshTree ["lib"] false
        ⟨[["lib"], ["lib", "A"]], [(["lib", "A", "doc.md"], [1])]⟩ []
        { rootExpanded := true
          cats := [{ path := ["lib", "A"], label := "📁 A", expanded := false,
                     docs := [{ path := ["lib", "A", "doc.md"],
                                label := "● doc.md" }] }]
          cursor := none }).1).cats.map CatNode.expanded = [true] ∧
    ((refreshTree ["lib"] false
        ⟨[["lib"], ["lib", "A"]], [(["lib", "A", "doc.md"], [1])]⟩ []
        { rootExpanded := true
          cats := [{ path := ["lib", "A"], label := "📁 A", expanded := false,
                     docs := [{ path := ["lib", "A", "doc.md"],
                                label := "● doc.md" }] }]
          cursor := none }).1).cats.map CatNode.expanded ≠ [false] := by
  decide

/-- C2 amended: after every refresh, every category node holding at least one
document is expanded, whether or not the user had collapsed it before the
refresh: the auto-expand default is applied on every rebuild and the
expanded-state restoration never collapses a node, so it cannot preserve a
recorded collapse. -/
theorem refresh_autoexpand_overrides_collapse (lib : Path)
    (showDotfiles : Bool) (fs : FS) (db : DB) (t : TreeState) :
    ∀ c ∈ ((refreshTree lib showDotfiles fs db t).1).cats,
      c.docs ≠ [] → c.expanded = true := by
  intro c hc hd
  rw [refreshTree_cats] at hc
  rw [List.mem_map] at hc
  obtain ⟨c₀, hc₀, heq⟩ := hc
  by_cases hhas : listHas (getExpandedPaths lib fs t) c₀.path = true
  · rw [if_pos hhas] at heq
    rw [← heq]
  · rw [if_neg hhas] at heq
    subst heq
    exact buildCats_docs_expanded hc₀ hd

/-- C2 amended witness: in the concrete collapsed-category state, the rebuilt
category node is expanded. -/
theorem refresh_autoexpand_overrides_collapse_witness :
    ({ path := ["lib", "A"], label := "📁 A", expanded := true,
       docs := [{ path := ["lib", "A", "doc.md"], label := "● doc.md" }] }
      ∈ ((refreshTree ["lib"] false
        ⟨[["lib"], ["lib", "A"]], [(["lib", "A", "doc.md"], [1])]⟩ []
        { rootExpanded := true
          cats := [{ path := ["lib", "A"], label := "📁 A", expanded := false,
                     docs := [{ path := ["lib", "A", "doc.md"],
                                label := "● doc.md" }] }]
          cursor := none }).1).cats) ∧
    ({ path := ["lib", "A"], label := "📁 A", expanded := true,
       docs := [{ path := ["lib", "A", "doc.md"], label := "● doc.md" }]
       : CatNode }).expanded = true :=
  ⟨by decide,
   refresh_autoexpand_overrides_collapse ["lib"] false
     ⟨[["lib"], ["lib", "A"]], [(["lib", "A", "doc.md"], [1])]⟩ []
     { rootExpanded := true
       cats := [{ path := ["lib", "A"], label := "📁 A", expanded := false,
                  docs := [{ path := ["lib", "A", "doc.md"],
                             label := "● doc.md" }] }]
       cursor := none }
     { path := ["lib", "A"], label := "📁 A", expanded := true,
       docs := [{ path := ["lib", "A", "doc.md"], label := "● doc.md" }] }
     (by decide) (by decide)⟩

/-- C5: after a refresh, every category node whose identity is in the saved
expanded set is expanded (and the root is expanded); if the saved cursor
identity is present in the new tree it is re-selected, and if it is not, the
cursor falls back to no selection. -/
theorem refreshTree_restores_navigation (lib : Path) (showDotfiles : Bool)
    (fs : FS) (db : DB) (t : TreeState) :
    (∀ c ∈ ((refreshTree lib showDotfiles fs db t).1).cats,
        c.path ∈ getExpandedPaths lib fs t → c.expanded = true) ∧
    ((refreshTree lib showDotfiles fs db t).1).rootExpanded = true ∧
    (∀ p : Path, t.cursor = some p →
        p ∈ treePaths lib (refreshTree lib showDotfiles fs db t).1 →
        ((refreshTree lib showDotfiles fs db t).1).cursor = some p) ∧
    (∀ p : Path, t.cursor = some p →
        p ∉ treePaths lib (refreshTree lib showDotfiles fs db t).1 →
        ((refreshTree lib showDotfiles fs db t).1).cursor = none) := by
  refine ⟨?_, refreshTree_rootExpanded lib showDotfiles fs db t, ?_, ?_⟩
  · intro c hc hmem
    rw [refreshTree_cats] at hc
    rw [List.mem_map] at hc
    obtain ⟨c₀, _, heq⟩ := hc
    by_cases hhas : listHas (getExpandedPaths lib fs t) c₀.path = true
    · rw [if_pos hhas] at heq
      rw [← heq]
    · rw [if_neg hhas] at heq
      subst heq
      exact absurd (listHas_iff_mem.mpr hmem) hhas
  · intro p hp hmem
    rw [refreshTree_eq] at hmem ⊢
    rw [hp] at hmem ⊢
    have hpaths : treePaths lib (selectPath lib
        (restoreExpandedState lib (getExpandedPaths lib fs t)
          (populateTree lib showDotfiles fs
            (syncDatabase lib showDotfiles fs db) none)) p) =
        treePaths lib (restoreExpandedState lib (getExpandedPaths lib fs t)
          (populateTree lib showDotfiles fs
            (syncDatabase lib showDotfiles fs db) none)) :=
      treePaths_eq_of_cats lib (selectPath_cats _ _ _)
    rw [hpaths] at hmem
    show (selectPath lib _ p).cursor = some p
    unfold selectPath
    rw [if_pos (listHas_iff_mem.mpr hmem)]
  · intro p hp hmem
    rw [refreshTree_eq] at hmem ⊢
    rw [hp] at hmem ⊢
    have hpaths : treePaths lib (selectPath lib
        (restoreExpandedState lib (getExpandedPaths lib fs t)
          (populateTree lib showDotfiles fs
            (syncDatabase lib showDotfiles fs db) none)) p) =
        treePaths lib (restoreExpandedState lib (getExpandedPaths lib fs t)
          (populateTree lib showDotfiles fs
            (syncDatabase lib showDotfiles fs db) none)) :=
      treePaths_eq_of_cats lib (selectPath_cats _ _ _)
    rw [hpaths] at hmem
    show (selectPath lib _ p).cursor = none
    unfold selectPath
    rw [if_neg]
    · rfl
    · intro hc
      exact hmem (listHas_iff_mem.mp hc)

/-- C5 witness: the round-trip of the spec: categories A and B, A expanded
with the cursor on its document, B receives a document before the refresh; A
stays expanded and the cursor stays on the document. -/
theorem refreshTree_restores_navigation_witness :
    (["lib", "A"] : Path) ∈ getExpandedPaths ["lib"]
      ⟨[["lib"], ["lib", "A"], ["lib", "B"]],
       [(["lib", "A", "x.md"], [1]), (["lib", "B", "y.md"], [2])]⟩
      { rootExpanded := true
        cats := [{ path := ["lib", "A"], label := "📁 A", expanded := true,
                   docs := [{ path := ["lib", "A", "x.md"],
                              label := "● x.md" }] }]
        cursor := some ["lib", "A", "x.md"] } ∧
    (["lib", "A", "x.md"] : Path) ∈ treePaths ["lib"]
      (refreshTree ["lib"] false
        ⟨[["lib"], ["lib", "A"], ["lib", "B"]],
         [(["lib", "A", "x.md"], [1]), (["lib", "B", "y.md"], [2])]⟩ []
        { rootExpanded := true
          cats := [{ path := ["lib", "A"], label := "📁 A", expanded := true,
                     docs := [{ path := ["lib", "A", "x.md"],
                                label := "● x.md" }] }]
          cursor := some ["lib", "A", "x.md"] }).1 ∧
    ((refreshTree ["lib"] false
        ⟨[["lib"], ["lib", "A"], ["lib", "B"]],
         [(["lib", "A", "x.md"], [1]), (["lib", "B", "y.md"], [2])]⟩ []
        { rootExpanded := true
          cats := [{ path := ["lib", "A"], label := "📁 A", expanded := true,
                     docs := [{ path := ["lib", "A", "x.md"],
                                label := "● x.md" }] }]
          cursor := some ["lib", "A", "x.md"] }).1).cursor
      = some ["lib", "A", "x.md"] :=
  ⟨by decide, by decide,
   (refreshTree_restores_navigation ["lib"] false
      ⟨[["lib"], ["lib", "A"], ["lib", "B"]],
       [(["lib", "A", "x.md"], [1]), (["lib", "B", "y.md"], [2])]⟩ []
      { rootExpanded := true
        cats := [{ path := ["lib", "A"], label := "📁 A", expanded := true,
                   docs := [{ path := ["lib", "A", "x.md"],
                              label := "● x.md" }] }]
        cursor := some ["lib", "A", "x.md"] }).2.2.1
     ["lib", "A", "x.md"] rfl (by decide)⟩

/-! ## Lemmas about stripping and sanitization -/

theorem pyStrip_eq_empty_iff {s : String} :
    pyStrip s = "" ↔ ∀ c ∈ s.data, c.isWhitespace = true := by
  unfold pyStrip
  constructor
  · intro h c hc
    have hdata :
        ((s.data.dropWhile Char.isWhitespace).reverse.dropWhile
          Char.isWhitespace).reverse = [] := congrArg String.data h
    rw [List.reverse_eq_nil_iff, List.dropWhile_eq_nil_iff] at hdata
    rw [← List.takeWhile_append_dropWhile Char.isWhitespace s.data] at hc
    rcases List.mem_append.mp hc with h1 | h2
    · exact List.mem_takeWhile_imp h1
    · exact hdata c (List.mem_reverse.mpr h2)
  · intro h
    have h1 : s.data.dropWhile Char.isWhitespace = [] :=
      List.dropWhile_eq_nil_iff.mpr (fun x hx => h x hx)
    rw [h1]
    rfl

theorem sanitize_empty_of_strip_empty {name : String}
    (h : pyStrip name = "") : sanitizeCategoryName name = "" := by
  unfold sanitizeCategoryName
  apply pyStrip_eq_empty_iff.mpr
  intro c hc
  have hc2 : c ∈ name.data.filter
      (fun c => c.isAlphanum || c == ' ' || c == '-' || c == '_') := hc
  rw [List.mem_filter] at hc2
  exact pyStrip_eq_empty_iff.mp h c hc2.1

/-- C8: createCategory keeps only alphanumeric characters, spaces, hyphens
and underscores and trims the result; when the sanitized name is empty or the
target already exists it fails with a message and creates nothing, otherwise
it creates exactly the directory named by the sanitized name. -/
theorem createCategory_sanitized_or_clean_failure (lib : Path) (fs : FS)
    (name : String) :
    ((sanitizeCategoryName name = "" ∨
        pathExists fs (lib ++ [sanitizeCategoryName name]) = true) →
      (createCategory lib fs name).1.success = false ∧
      (createCategory lib fs name).2 = fs ∧
      (createCategory lib fs name).1.message ≠ "") ∧
    (sanitizeCategoryName name ≠ "" →
      pathExists fs (lib ++ [sanitizeCategoryName name]) = false →
      (createCategory lib fs name).1.success = true ∧
      (createCategory lib fs name).2 =
        ⟨(lib ++ [sanitizeCategoryName name]) :: fs.dirs, fs.files⟩) := by
  constructor
  · intro h
    unfold createCategory
    by_cases h0 : pyStrip name = ""
    · rw [if_pos h0]
      refine ⟨rfl, rfl, ?_⟩
      show ("Category name cannot be empty" : String) ≠ ""
      decide
    · rw [if_neg h0]
      dsimp only
      by_cases h1 : sanitizeCategoryName name = ""
      · rw [if_pos h1]
        refine ⟨rfl, rfl, ?_⟩
        show ("Invalid category name" : String) ≠ ""
        decide
      · rw [if_neg h1]
        rcases h with h | h
        · exact absurd h h1
        · rw [if_pos h]
          refine ⟨rfl, rfl, ?_⟩
          show ("Category already exists" : String) ≠ ""
          decide
  · intro h1 h2
    unfold createCategory
    have h0 : ¬ pyStrip name = "" :=
      fun hc => h1 (sanitize_empty_of_strip_empty hc)
    rw [if_neg h0]
    dsimp only
    rw [if_neg h1, if_neg (by rw [h2]; exact Bool.false_ne_true)]
    exact ⟨rfl, rfl⟩

/-- C8 witness: createCategory on the name of the testable property sentence
sanitizes to MyCat and creates that directory; an all-invalid name fails
cleanly without touching the filesystem. -/
theorem createCategory_sanitized_witness :
    sanitizeCategoryName "My/Cat*" ≠ "" ∧
    pathExists ⟨[["lib"]], []⟩ (["lib"] ++ [sanitizeCategoryName "My/Cat*"])
      = false ∧
    ((createCategory ["lib"] ⟨[["lib"]], []⟩ "My/Cat*").1.success = true ∧
      (createCategory ["lib"] ⟨[["lib"]], []⟩ "My/Cat*").2 =
        ⟨(["lib"] ++ [sanitizeCategoryName "My/Cat*"]) :: [["lib"]], []⟩) ∧
    (sanitizeCategoryName " /* " = "" ∨
      pathExists ⟨[["lib"]], []⟩ (["lib"] ++ [sanitizeCategoryName " /* "])
        = true) ∧
    ((createCategory ["lib"] ⟨[["lib"]], []⟩ " /* ").1.success = false ∧
      (createCategory ["lib"] ⟨[["lib"]], []⟩ " /* ").2 = ⟨[["lib"]], []⟩ ∧
      (createCategory ["lib"] ⟨[["lib"]], []⟩ " /* ").1.message ≠ "") :=
  ⟨by decide, by decide,
   (createCategory_sanitized_or_clean_failure ["lib"] ⟨[["lib"]], []⟩
     "My/Cat*").2 (by decide) (by decide),
   by decide,
   (createCategory_sanitized_or_clean_failure ["lib"] ⟨[["lib"]], []⟩
     " /* ").1 (by decide)⟩

/-- C9: deleteDocument on a path that does not exist or is not under the
library root fails and leaves the filesystem, the status store and the tree
unchanged (the FileTree wrapper only removes the status record and refreshes
after a successful disk deletion). -/
theorem treeDeleteDocument_outside_library_noop (lib : Path)
    (showDotfiles : Bool) (fs : FS) (db : DB) (t : TreeState) (p : Path)
    (h : pathExists fs p = false ∨ relativeToOk lib p = false) :
    treeDeleteDocument lib showDotfiles fs db t p = (false, fs, db, t) := by
  unfold treeDeleteDocument deleteDocument
  rcases h with h | h
  · rw [if_pos (by rw [h]; exact Bool.false_ne_true)]
    rfl
  · by_cases hex : pathExists fs p = true
    · rw [if_neg (by rw [hex]; intro hc; exact hc rfl)]
      rw [if_pos (by rw [h]; exact Bool.false_ne_true)]
      rfl
    · rw [if_pos hex]
      rfl

/-- C9 witness: deleting a path outside the library root fails and changes
nothing, with a status record and a tree present. -/
theorem treeDeleteDocument_outside_library_noop_witness :
    relativeToOk ["lib"] ["elsewhere", "doc.md"] = false ∧
    treeDeleteDocument ["lib"] false
      ⟨[["lib"]], [(["elsewhere", "doc.md"], [1])]⟩
      [(["elsewhere", "doc.md"],
        { originalPath := none, category := "General", title := none,
          isRead := true, lastOpened := some () })]
      { rootExpanded := true, cats := [], cursor := none }
      ["elsewhere", "doc.md"] =
      (false, ⟨[["lib"]], [(["elsewhere", "doc.md"], [1])]⟩,
       [(["elsewhere", "doc.md"],
         { originalPath := none, category := "General", title := none,
           isRead := true, lastOpened := some () })],
       { rootExpanded := true, cats := [], cursor := none }) :=
  ⟨by decide,
   treeDeleteDocument_outside_library_noop ["lib"] false
     ⟨[["lib"]], [(["elsewhere", "doc.md"], [1])]⟩
     [(["elsewhere", "doc.md"],
       { originalPath := none, category := "General", title := none,
         isRead := true, lastOpened := some () })]
     { rootExpanded := true, cats := [], cursor := none }
     ["elsewhere", "doc.md"] (Or.inr (by decide))⟩

/-- C10: moveDocument of a library document into a category that already
holds a same-named file fails and leaves every file unchanged, but the target
category directory is present afterwards: mkdir(exist_ok=True) runs before
the collision check, so the failed call still ensures the directory. -/
theorem moveDocument_collision_creates_target_dir (lib : Path) (fs : FS)
    (p : Path) (newCategory : String) (c d : Content)
    (hfile : alookup fs.files p = some c)
    (hlib : relativeToOk lib p = true)
    (hcoll : alookup fs.files (lib ++ [newCategory] ++ [lastName p])
      = some d) :
    moveDocument lib fs p newCategory =
      ({ success := false,
         message := "Document already exists in " ++ newCategory },
       mkdirIfAbsent fs (lib ++ [newCategory])) ∧
    (mkdirIfAbsent fs (lib ++ [newCategory])).files = fs.files ∧
    listHas (mkdirIfAbsent fs (lib ++ [newCategory])).dirs
      (lib ++ [newCategory]) = true := by
  have hex : pathExists fs p = true := by
    unfold pathExists
    rw [hfile]
    simp
  refine ⟨?_, mkdirIfAbsent_files fs _, mkdirIfAbsent_has fs _⟩
  unfold moveDocument
  rw [if_neg (by rw [hex]; intro hc; exact hc rfl)]
  rw [if_neg (by rw [hlib]; intro hc; exact hc rfl)]
  dsimp only
  rw [if_pos]
  unfold pathExists
  rw [mkdirIfAbsent_files, hcoll]
  simp

/-- C10 witness: moving A/x.md to category B whose directory is absent from
the directory list while a same-named file path is present: the call fails,
files are unchanged, and the B directory has been created by the failed
call. -/
theorem moveDocument_collision_creates_target_dir_witness :
    alookup ([(["lib", "A", "x.md"], [1]), (["lib", "B", "x.md"], [2])] :
        List (Path × Content)) ["lib", "A", "x.md"] = some [1] ∧
    listHas [["lib"], ["lib", "A"]] ["lib", "B"] = false ∧
    (moveDocument ["lib"]
        ⟨[["lib"], ["lib", "A"]],
         [(["lib", "A", "x.md"], [1]), (["lib", "B", "x.md"], [2])]⟩
        ["lib", "A", "x.md"] "B" =
      ({ success := false, message := "Document already exists in " ++ "B" },
       mkdirIfAbsent
         ⟨[["lib"], ["lib", "A"]],
          [(["lib", "A", "x.md"], [1]), (["lib", "B", "x.md"], [2])]⟩
         (["lib"] ++ ["B"])) ∧
      (mkdirIfAbsent
         ⟨[["lib"], ["lib", "A"]],
          [(["lib", "A", "x.md"], [1]), (["lib", "B", "x.md"], [2])]⟩
         (["lib"] ++ ["B"])).files =
        [(["lib", "A", "x.md"], [1]), (["lib", "B", "x.md"], [2])] ∧
      listHas (mkdirIfAbsent
         ⟨[["lib"], ["lib", "A"]],
          [(["lib", "A", "x.md"], [1]), (["lib", "B", "x.md"], [2])]⟩
         (["lib"] ++ ["B"])).dirs (["lib"] ++ ["B"]) = true) :=
  ⟨by decide, by decide,
   moveDocument_collision_creates_target_dir ["lib"]
     ⟨[["lib"], ["lib", "A"]],
      [(["lib", "A", "x.md"], [1]), (["lib", "B", "x.md"], [2])]⟩
     ["lib", "A", "x.md"] "B" [1] [2]
     (by decide) (by decide) (by decide)⟩

/-! ## Branch characterizations of addDocument -/

/-- When the destination is free, add_document copies the source to the
destination name derived from the source file name. -/
theorem addDocument_fresh (lib : Path) (fs : FS) (sp : Path)
    (category : String) (cs : Content)
    (hsrc : alookup fs.files sp = some cs)
    (hsuf : pyLower (pySuffix (lastName sp)) = ".md")
    (hend : strEndsWith (lastName sp) ".md" = true)
    (hfree : pathExists (mkdirIfAbsent fs (lib ++ [category]))
      (lib ++ [category] ++ [lastName sp]) = false) :
    addDocument lib fs sp category none =
      ({ success := true,
         message := "Added " ++ lastName sp ++ " to " ++ category,
         path := some (lib ++ [category] ++ [lastName sp]) },
       ⟨(mkdirIfAbsent fs (lib ++ [category])).dirs,
        (lib ++ [category] ++ [lastName sp], cs) :: fs.files⟩) := by
  have hex : pathExists fs sp = true := by
    unfold pathExists
    rw [hsrc]
    simp
  unfold addDocument
  rw [if_neg (by rw [hex]; intro hc; exact hc rfl)]
  rw [if_neg (fun hc => hc hsuf)]
  dsimp only
  rw [Option.getD_none, if_pos hend]
  rw [if_neg (by rw [hfree]; exact Bool.false_ne_true)]
  rw [mkdirIfAbsent_files, hsrc]

/-- C4: when the destination already exists with byte-identical content to
the source, add_document copies nothing, reports that the document already
exists, and returns the existing destination path — but with the success
flag False, so by the return convention of the tuple (and the accounting of
import_directory, which counts it in fail_count) the outcome is a failure,
not the non-error informational outcome of the claim.  This theorem is the
amended claim. -/
theorem addDocument_identical_duplicate (lib : Path) (fs : FS) (sp : Path)
    (category : String) (cs : Content)
    (hsrc : alookup fs.files sp = some cs)
    (hsuf : pyLower (pySuffix (lastName sp)) = ".md")
    (hend : strEndsWith (lastName sp) ".md" = true)
    (hdst : alookup fs.files (lib ++ [category] ++ [lastName sp])
      = some cs) :
    addDocument lib fs sp category none =
      ({ success := false, message := "Document already exists in library",
         path := some (lib ++ [category] ++ [lastName sp]) },
       mkdirIfAbsent fs (lib ++ [category])) ∧
    (mkdirIfAbsent fs (lib ++ [category])).files = fs.files := by
  have hex : pathExists fs sp = true := by
    unfold pathExists
    rw [hsrc]
    simp
  refine ⟨?_, mkdirIfAbsent_files fs _⟩
  unfold addDocument
  rw [if_neg (by rw [hex]; intro hc; exact hc rfl)]
  rw [if_neg (fun hc => hc hsuf)]
  dsimp only
  rw [Option.getD_none, if_pos hend]
  rw [if_pos (show pathExists (mkdirIfAbsent fs (lib ++ [category]))
      (lib ++ [category] ++ [lastName sp]) = true by
    unfold pathExists
    rw [mkdirIfAbsent_files, hdst]
    simp)]
  rw [if_pos (show areFilesIdentical (mkdirIfAbsent fs (lib ++ [category])) sp
      (lib ++ [category] ++ [lastName sp]) = true by
    unfold areFilesIdentical
    rw [mkdirIfAbsent_files, hsrc, hdst]
    simp)]

/-- When the destination exists with different content, add_document runs the
suffix loop and copies the source to the name the loop settles on. -/
theorem addDocument_collision (lib : Path) (fs : FS) (sp : Path)
    (category : String) (cs cd : Content) (finalName : String)
    (hsrc : alookup fs.files sp = some cs)
    (hsuf : pyLower (pySuffix (lastName sp)) = ".md")
    (hend : strEndsWith (lastName sp) ".md" = true)
    (hdst : alookup fs.files (lib ++ [category] ++ [lastName sp])
      = some cd)
    (hne : (cs == cd) = false)
    (hres : resolveCollision (mkdirIfAbsent fs (lib ++ [category]))
      (lib ++ [category]) (lastName sp) 1
      ((mkdirIfAbsent fs (lib ++ [category])).dirs.length +
        (mkdirIfAbsent fs (lib ++ [category])).files.length + 1)
      = some finalName) :
    addDocument lib fs sp category none =
      ({ success := true,
         message := "Added " ++ lastName sp ++ " to " ++ category,
         path := some (lib ++ [category] ++ [finalName]) },
       ⟨(mkdirIfAbsent fs (lib ++ [category])).dirs,
        (lib ++ [category] ++ [finalName], cs) :: fs.files⟩) := by
  have hex : pathExists fs sp = true := by
    unfold pathExists
    rw [hsrc]
    simp
  unfold addDocument
  rw [if_neg (by rw [hex]; intro hc; exact hc rfl)]
  rw [if_neg (fun hc => hc hsuf)]
  dsimp only
  rw [Option.getD_none, if_pos hend]
  rw [if_pos (show pathExists (mkdirIfAbsent fs (lib ++ [category]))
      (lib ++ [category] ++ [lastName sp]) = true by
    unfold pathExists
    rw [mkdirIfAbsent_files, hdst]
    simp)]
  rw [if_neg (show ¬ areFilesIdentical (mkdirIfAbsent fs (lib ++ [category]))
      sp (lib ++ [category] ++ [lastName sp]) = true by
    unfold areFilesIdentical
    rw [mkdirIfAbsent_files, hsrc, hdst]
    simp [hne])]
  rw [hres, mkdirIfAbsent_files, hsrc]

/-- C4 counterexample: adding a source whose destination exists with
byte-identical content returns success = False — by the return convention of
the (success, message, path) tuple the outcome is a failure, which
import_directory counts in fail_count; the claim calls it a non-error,
non-failure outcome. -/
theorem addDocument_identical_duplicate_reports_failure :
    (addDocument ["lib"]
        ⟨[["lib"], ["lib", "General"]],
         [(["s", "a.md"], [1, 2]), (["lib", "General", "a.md"], [1, 2])]⟩
        ["s", "a.md"] "General" none).1 =
      { success := false, message := "Document already exists in library",
        path := some ["lib", "General", "a.md"] } ∧
    (addDocument ["lib"]
        ⟨[["lib"], ["lib", "General"]],
         [(["s", "a.md"], [1, 2]), (["lib", "General", "a.md"], [1, 2])]⟩
        ["s", "a.md"] "General" none).1.success ≠ true ∧
    (addDocument ["lib"]
        ⟨[["lib"], ["lib", "General"]],
         [(["s", "a.md"], [1, 2]), (["lib", "General", "a.md"], [1, 2])]⟩
        ["s", "a.md"] "General" none).2 =
      ⟨[["lib"], ["lib", "General"]],
       [(["s", "a.md"], [1, 2]), (["lib", "General", "a.md"], [1, 2])]⟩ := by
  decide

/-- C4 witness: the amended claim applied at the concrete identical-duplicate
state. -/
theorem addDocument_identical_duplicate_witness :
    alookup ([(["s", "a.md"], [1, 2]), (["lib", "General", "a.md"], [1, 2])] :
        List (Path × Content)) ["s", "a.md"] = some [1, 2] ∧
    alookup ([(["s", "a.md"], [1, 2]), (["lib", "General", "a.md"], [1, 2])] :
        List (Path × Content)) (["lib"] ++ ["General"] ++ ["a.md"])
      = some [1, 2] ∧
    (addDocument ["lib"]
        ⟨[["lib"], ["lib", "General"]],
         [(["s", "a.md"], [1, 2]), (["lib", "General", "a.md"], [1, 2])]⟩
        ["s", "a.md"] "General" none =
      ({ success := false, message := "Document already exists in library",
         path := some (["lib"] ++ ["General"] ++ [lastName ["s", "a.md"]]) },
       mkdirIfAbsent
         ⟨[["lib"], ["lib", "General"]],
          [(["s", "a.md"], [1, 2]), (["lib", "General", "a.md"], [1, 2])]⟩
         (["lib"] ++ ["General"])) ∧
      (mkdirIfAbsent
         ⟨[["lib"], ["lib", "General"]],
          [(["s", "a.md"], [1, 2]), (["lib", "General", "a.md"], [1, 2])]⟩
         (["lib"] ++ ["General"])).files =
        [(["s", "a.md"], [1, 2]), (["lib", "General", "a.md"], [1, 2])]) :=
  ⟨by decide, by decide,
   addDocument_identical_duplicate ["lib"]
     ⟨[["lib"], ["lib", "General"]],
      [(["s", "a.md"], [1, 2]), (["lib", "General", "a.md"], [1, 2])]⟩
     ["s", "a.md"] "General" [1, 2]
     (by decide) (by decide) (by decide) (by decide)⟩

/-! ## The collision loop never lands on an existing path -/

theorem resolveCollision_fresh {fs : FS} {categoryPath : Path}
    {destName finalName : String} {counter fuel : Nat}
    (h : resolveCollision fs categoryPath destName counter fuel
      = some finalName) :
    pathExists fs (categoryPath ++ [finalName]) = false := by
  induction fuel generalizing destName counter with
  | zero => exact absurd h (by simp [resolveCollision])
  | succ f ih =>
    unfold resolveCollision at h
    by_cases hex : pathExists fs (categoryPath ++ [destName]) = true
    · rw [if_pos hex] at h
      exact ih h
    · rw [if_neg hex] at h
      rw [Option.some.injEq] at h
      subst h
      exact Bool.not_eq_true _ ▸ hex

/-- Every successful add_document creates a file at a path that did not exist
as a file before and keeps every pre-existing file entry unchanged. -/
theorem addDocument_success_creates (lib : Path) (fs : FS) (sp : Path)
    (category : String) (title : Option String)
    (hs : (addDocument lib fs sp category title).1.success = true) :
    ∃ (p : Path) (cs : Content),
      (addDocument lib fs sp category title).1.path = some p ∧
      alookup fs.files p = none ∧
      (addDocument lib fs sp category title).2.files = (p, cs) :: fs.files := by
  unfold addDocument at hs ⊢
  by_cases h1 : pathExists fs sp = true
  case neg =>
    rw [if_pos h1] at hs
    simp at hs
  case pos =>
    rw [if_neg (fun hc => hc h1)] at hs ⊢
    by_cases h2 : pyLower (pySuffix (lastName sp)) = ".md"
    case neg =>
      rw [if_pos h2] at hs
      simp at hs
    case pos =>
      rw [if_neg (fun hc => hc h2)] at hs ⊢
      dsimp only at hs ⊢
      set fs1 := mkdirIfAbsent fs (lib ++ [category]) with hfs1
      set dn := if strEndsWith (Option.getD title (lastName sp)) ".md" = true
        then Option.getD title (lastName sp)
        else Option.getD title (lastName sp) ++ ".md" with hdn
      by_cases h4 : pathExists fs1 (lib ++ [category] ++ [dn]) = true
      case pos =>
        rw [if_pos h4] at hs ⊢
        by_cases h6 : areFilesIdentical fs1 sp (lib ++ [category] ++ [dn])
            = true
        case pos =>
          rw [if_pos h6] at hs
          simp at hs
        case neg =>
          rw [if_neg h6] at hs ⊢
          revert hs
          cases h7 : resolveCollision fs1 (lib ++ [category]) dn 1
              (fs1.dirs.length + fs1.files.length + 1) with
          | none =>
            intro hs
            simp at hs
          | some finalName =>
            revert h7
            cases h5 : alookup fs1.files sp with
            | none =>
              intro h7 hs
              simp at hs
            | some cs =>
              intro h7 hs
              refine ⟨lib ++ [category] ++ [finalName], cs, rfl, ?_, ?_⟩
              · have hfree := resolveCollision_fresh h7
                unfold pathExists at hfree
                rw [hfs1, mkdirIfAbsent_files, Bool.or_eq_false_iff] at hfree
                have h8 := hfree.2
                cases halo : alookup fs.files (lib ++ [category] ++ [finalName]) with
                | none => rfl
                | some v =>
                  rw [halo] at h8
                  simp at h8
              · show (lib ++ [category] ++ [finalName], cs) :: fs1.files
                  = (lib ++ [category] ++ [finalName], cs) :: fs.files
                rw [hfs1, mkdirIfAbsent_files]
      case neg =>
        rw [if_neg h4] at hs ⊢
        revert hs
        cases h5 : alookup fs1.files sp with
        | none =>
          intro hs
          simp at hs
        | some cs =>
          intro hs
          refine ⟨lib ++ [category] ++ [dn], cs, rfl, ?_, ?_⟩
          · unfold pathExists at h4
            rw [Bool.not_eq_true, Bool.or_eq_false_iff] at h4
            rw [hfs1, mkdirIfAbsent_files] at h4
            have h8 := h4.2
            cases halo : alookup fs.files (lib ++ [category] ++ [dn]) with
            | none => rfl
            | some v =>
              rw [halo] at h8
              simp at h8
          · show (lib ++ [category] ++ [dn], cs) :: fs1.files
              = (lib ++ [category] ++ [dn], cs) :: fs.files
            rw [hfs1, mkdirIfAbsent_files]

/-! ## The repeated-collision scenario for add_document -/

/-- A library with an empty General category and three source files named
name.md with contents a, b and c. -/
def collisionState (a b c : Content) : FS :=
  ⟨[["lib"], ["lib", "General"]],
   [(["s1", "name.md"], a), (["s2", "name.md"], b), (["s3", "name.md"], c)]⟩

/-- First add into General. -/
def collisionAdd1 (a b c : Content) : AddResult × FS :=
  addDocument ["lib"] (collisionState a b c) ["s1", "name.md"] "General" none

/-- Second add of a same-named source. -/
def collisionAdd2 (a b c : Content) : AddResult × FS :=
  addDocument ["lib"] (collisionAdd1 a b c).2 ["s2", "name.md"] "General" none

/-- Third add of a same-named source. -/
def collisionAdd3 (a b c : Content) : AddResult × FS :=
  addDocument ["lib"] (collisionAdd2 a b c).2 ["s3", "name.md"] "General" none

/-- C1 counterexample: with name.md and name_1.md already present (contents
differing from the source), the third colliding add is stored as
name_1_2.md, not name_2.md: each loop round appends the counter to the stem
of the previously tried candidate, so the base stem is not preserved beyond
the first suffix. -/
theorem addDocument_third_collision_not_name_2 :
    (collisionAdd3 [0] [1] [2]).1.path
      = some ["lib", "General", "name_1_2.md"] ∧
    (collisionAdd3 [0] [1] [2]).1.path
      ≠ some ["lib", "General", "name_2.md"] := by
  decide

/-- C1 amended: no add_document call ever overwrites an existing file (every
successful add stores the source at a path with no pre-existing file entry,
keeping all other entries), and repeatedly adding same-named files with
pairwise different content to one category produces the name sequence
name.md, name_1.md, name_1_2.md — the numeric suffix is appended to the full
stem of the previously tried candidate rather than to the original base stem,
so the sequence is not name.md, name_1.md, name_2.md. -/
theorem addDocument_collision_suffix_growth :
    (∀ (lib : Path) (fs : FS) (sp : Path) (category : String)
        (title : Option String),
      (addDocument lib fs sp category title).1.success = true →
      ∃ (p : Path) (cs : Content),
        (addDocument lib fs sp category title).1.path = some p ∧
        alookup fs.files p = none ∧
        (addDocument lib fs sp category title).2.files
          = (p, cs) :: fs.files) ∧
    (∀ a b c : Content, (b == a) = false → (c == a) = false →
      (collisionAdd1 a b c).1.path = some ["lib", "General", "name.md"] ∧
      (collisionAdd2 a b c).1.path = some ["lib", "General", "name_1.md"] ∧
      (collisionAdd3 a b c).1.path
        = some ["lib", "General", "name_1_2.md"] ∧
      alookup (collisionAdd3 a b c).2.files ["lib", "General", "name.md"]
        = some a ∧
      alookup (collisionAdd3 a b c).2.files ["lib", "General", "name_1.md"]
        = some b ∧
      alookup (collisionAdd3 a b c).2.files ["lib", "General", "name_1_2.md"]
        = some c) := by
  refine ⟨addDocument_success_creates, ?_⟩
  intro a b c hba hca
  have h1 : collisionAdd1 a b c =
      ({ success := true, message := "Added name.md to General",
         path := some ["lib", "General", "name.md"] },
       ⟨[["lib"], ["lib", "General"]],
        [(["lib", "General", "name.md"], a),
         (["s1", "name.md"], a), (["s2", "name.md"], b),
         (["s3", "name.md"], c)]⟩) :=
    addDocument_fresh ["lib"] (collisionState a b c) ["s1", "name.md"]
      "General" a rfl rfl rfl rfl
  have h2 : collisionAdd2 a b c =
      ({ success := true, message := "Added name.md to General",
         path := some ["lib", "General", "name_1.md"] },
       ⟨[["lib"], ["lib", "General"]],
        [(["lib", "General", "name_1.md"], b),
         (["lib", "General", "name.md"], a),
         (["s1", "name.md"], a), (["s2", "name.md"], b),
         (["s3", "name.md"], c)]⟩) := by
    unfold collisionAdd2
    rw [congrArg Prod.snd h1]
    exact addDocument_collision ["lib"] _ ["s2", "name.md"] "General" b a
      "name_1.md" rfl rfl rfl rfl hba rfl
  have h3 : collisionAdd3 a b c =
      ({ success := true, message := "Added name.md to General",
         path := some ["lib", "General", "name_1_2.md"] },
       ⟨[["lib"], ["lib", "General"]],
        [(["lib", "General", "name_1_2.md"], c),
         (["lib", "General", "name_1.md"], b),
         (["lib", "General", "name.md"], a),
         (["s1", "name.md"], a), (["s2", "name.md"], b),
         (["s3", "name.md"], c)]⟩) := by
    unfold collisionAdd3
    rw [congrArg Prod.snd h2]
    exact addDocument_collision ["lib"] _ ["s3", "name.md"] "General" c a
      "name_1_2.md" rfl rfl rfl rfl hca rfl
  rw [h1, h2, h3]
  exact ⟨rfl, rfl, rfl, rfl, rfl, rfl⟩

/-- C1 witness: the amended claim at pairwise distinct concrete contents, and
the no-overwrite part at the first concrete add. -/
theorem addDocument_collision_suffix_growth_witness :
    ((addDocument ["lib"] (collisionState [0] [1] [2]) ["s1", "name.md"]
        "General" none).1.success = true) ∧
    (∃ (p : Path) (cs : Content),
      (addDocument ["lib"] (collisionState [0] [1] [2]) ["s1", "name.md"]
        "General" none).1.path = some p ∧
      alookup (collisionState [0] [1] [2]).files p = none ∧
      (addDocument ["lib"] (collisionState [0] [1] [2]) ["s1", "name.md"]
        "General" none).2.files
        = (p, cs) :: (collisionState [0] [1] [2]).files) ∧
    ((([1] : Content) == [0]) = false) ∧ ((([2] : Content) == [0]) = false) ∧
    ((collisionAdd1 [0] [1] [2]).1.path = some ["lib", "General", "name.md"] ∧
     (collisionAdd2 [0] [1] [2]).1.path
       = some ["lib", "General", "name_1.md"] ∧
     (collisionAdd3 [0] [1] [2]).1.path
       = some ["lib", "General", "name_1_2.md"] ∧
     alookup (collisionAdd3 [0] [1] [2]).2.files
       ["lib", "General", "name.md"] = some [0] ∧
     alookup (collisionAdd3 [0] [1] [2]).2.files
       ["lib", "General", "name_1.md"] = some [1] ∧
     alookup (collisionAdd3 [0] [1] [2]).2.files
       ["lib", "General", "name_1_2.md"] = some [2]) :=
  ⟨by decide,
   addDocument_collision_suffix_growth.1 ["lib"] (collisionState [0] [1] [2])
     ["s1", "name.md"] "General" none (by decide),
   by decide, by decide,
   addDocument_collision_suffix_growth.2 [0] [1] [2] (by decide) (by decide)⟩

/-! ## Count lemmas for the import loop -/

theorem importStep_counts (lib : Path) (category : Option String)
    (sourceDir : Path) (acc : ImportResult × FS) (m : Path) :
    (importStep lib category sourceDir acc m).1.messages.length
      = acc.1.messages.length + 1 ∧
    (importStep lib category sourceDir acc m).1.successCount
      + (importStep lib category sourceDir acc m).1.failCount
      = acc.1.successCount + acc.1.failCount + 1 := by
  unfold importStep
  dsimp only
  constructor
  · simp
  · cases hr : (addDocument lib acc.2 m
        (importTargetCategory category sourceDir m) none).1.success
    · simp [hr]
      omega
    · simp [hr]
      omega

theorem importFold_counts (ms : List Path) (lib : Path)
    (category : Option String) (sourceDir : Path) :
    ∀ acc : ImportResult × FS,
    ((ms.foldl (importStep lib category sourceDir) acc).1.messages.length
       = acc.1.messages.length + ms.length) ∧
    ((ms.foldl (importStep lib category sourceDir) acc).1.successCount +
     (ms.foldl (importStep lib category sourceDir) acc).1.failCount
       = acc.1.successCount + acc.1.failCount + ms.length) := by
  induction ms with
  | nil =>
    intro acc
    simp
  | cons m rest ih =>
    intro acc
    have hstep := importStep_counts lib category sourceDir acc m
    have hrest := ih (importStep lib category sourceDir acc m)
    constructor
    · rw [List.foldl_cons, hrest.1, hstep.1, List.length_cons]
      omega
    · rw [List.foldl_cons, hrest.2, hstep.2, List.length_cons]
      omega

/-- C6 amended: import_directory on an existing source directory produces
exactly one message per glob match and one success-or-failure count per glob
match, never aborting mid-batch; but the glob pattern matches only names
ending in .md, so a directory containing 3 markdown files and 1 non-markdown
file yields 3 messages, not 4 — the non-markdown file is never considered. -/
theorem importDirectory_one_message_per_match (lib : Path) (fs : FS)
    (sourceDir : Path) (category : Option String) (recursive : Bool)
    (h : listHas fs.dirs sourceDir = true) :
    (importDirectory lib fs sourceDir category recursive).1.messages.length
      = (globImport fs sourceDir recursive).length ∧
    (importDirectory lib fs sourceDir category recursive).1.successCount
      + (importDirectory lib fs sourceDir category recursive).1.failCount
      = (globImport fs sourceDir recursive).length := by
  unfold importDirectory
  rw [if_neg (by rw [h]; intro hc; exact hc rfl)]
  have hfold := importFold_counts (globImport fs sourceDir recursive) lib
    category sourceDir
    ({ successCount := 0, failCount := 0, messages := [] }, fs)
  simpa using hfold

/-- C6 counterexample: a source directory holding a.md, b.md, c.md and d.txt
imports with success_count 3, but the messages list has length 3, not the
length 4 the claim states: the glob considers only the markdown files. -/
theorem importDirectory_messages_length_three :
    (importDirectory ["lib"]
        ⟨[["lib"], ["lib", "General"], ["src"]],
         [(["src", "a.md"], [1]), (["src", "b.md"], [2]),
          (["src", "c.md"], [3]), (["src", "d.txt"], [4])]⟩
        ["src"] (some "General") true).1.successCount = 3 ∧
    (importDirectory ["lib"]
        ⟨[["lib"], ["lib", "General"], ["src"]],
         [(["src", "a.md"], [1]), (["src", "b.md"], [2]),
          (["src", "c.md"], [3]), (["src", "d.txt"], [4])]⟩
        ["src"] (some "General") true).1.messages.length = 3 ∧
    (importDirectory ["lib"]
        ⟨[["lib"], ["lib", "General"], ["src"]],
         [(["src", "a.md"], [1]), (["src", "b.md"], [2]),
          (["src", "c.md"], [3]), (["src", "d.txt"], [4])]⟩
        ["src"] (some "General") true).1.messages.length ≠ 4 := by
  decide

/-- C6 witness: the amended claim at the concrete 3-markdown-plus-1-other
directory, where the glob matches exactly the three markdown files. -/
theorem importDirectory_one_message_per_match_witness :
    listHas [["lib"], ["lib", "General"], ["src"]] ["src"] = true ∧
    (globImport
        ⟨[["lib"], ["lib", "General"], ["src"]],
         [(["src", "a.md"], [1]), (["src", "b.md"], [2]),
          (["src", "c.md"], [3]), (["src", "d.txt"], [4])]⟩
        ["src"] true).length = 3 ∧
    ((importDirectory ["lib"]
        ⟨[["lib"], ["lib", "General"], ["src"]],
         [(["src", "a.md"], [1]), (["src", "b.md"], [2]),
          (["src", "c.md"], [3]), (["src", "d.txt"], [4])]⟩
        ["src"] (some "General") true).1.messages.length =
      (globImport
        ⟨[["lib"], ["lib", "General"], ["src"]],
         [(["src", "a.md"], [1]), (["src", "b.md"], [2]),
          (["src", "c.md"], [3]), (["src", "d.txt"], [4])]⟩
        ["src"] true).length ∧
     (importDirectory ["lib"]
        ⟨[["lib"], ["lib", "General"], ["src"]],
         [(["src", "a.md"], [1]), (["src", "b.md"], [2]),
          (["src", "c.md"], [3]), (["src", "d.txt"], [4])]⟩
        ["src"] (some "General") true).1.successCount
      + (importDirectory ["lib"]
        ⟨[["lib"], ["lib", "General"], ["src"]],
         [(["src", "a.md"], [1]), (["src", "b.md"], [2]),
          (["src", "c.md"], [3]), (["src", "d.txt"], [4])]⟩
        ["src"] (some "General") true).1.failCount =
      (globImport
        ⟨[["lib"], ["lib", "General"], ["src"]],
         [(["src", "a.md"], [1]), (["src", "b.md"], [2]),
          (["src", "c.md"], [3]), (["src", "d.txt"], [4])]⟩
        ["src"] true).length) :=
  ⟨by decide, by decide,
   importDirectory_one_message_per_match ["lib"]
     ⟨[["lib"], ["lib", "General"], ["src"]],
      [(["src", "a.md"], [1]), (["src", "b.md"], [2]),
       (["src", "c.md"], [3]), (["src", "d.txt"], [4])]⟩
     ["src"] (some "General") true (by decide)⟩

end Direktiv
